import Mathlib

/-!
Shallow embedding of the client-side data layer of the finance-app frontend:
the authenticated HTTP gateway with one-shot credential renewal
(src/lib/api.ts, src/lib/auth.ts as bundled in src/src/hooks/useAuth.tsx),
the four entity stores (useAccounts, useCategories, useTransactions,
useTransfers), the transfer form boundary check (Transfers.tsx) and the
dashboard aggregation (Dashboard component).

Machine numbers are modelled as Nat/Int, decimal-string amounts are parsed
into Rat; JS truthiness is made explicit where the source relies on it.
-/

/-! ## Data model (src/types/auth.ts shapes used by the hooks) -/

/-- Account record: `{id, name, balance: decimal-as-string, owner}`. -/
structure Account where
  id : Nat
  name : String
  balance : String
  owner : Nat
deriving DecidableEq, Repr

/-- Category type enum `'INCOME' | 'EXPENSE'`. -/
inductive CategoryType where
  | INCOME
  | EXPENSE
deriving DecidableEq, Repr

/-- Category record. The `type` field is the INCOME/EXPENSE discriminator. -/
structure Category where
  id : Nat
  name : String
  ctype : CategoryType
  owner : Nat
deriving DecidableEq, Repr

/-- Transaction record; `account` is an account id, `category` an optional
category id (`null` in the source becomes `none`). -/
structure Transaction where
  id : Nat
  account : Nat
  category : Option Nat
  amount : String
  date : String
  description : String
  owner : Nat
deriving DecidableEq, Repr

/-- Transfer record. -/
structure Transfer where
  id : Nat
  from_account : Nat
  to_account : Nat
  amount : String
  date : String
  description : String
  owner : Nat
deriving DecidableEq, Repr

/-- Joined transaction view produced by `populateTransactionDetails`:
the raw `account` id is replaced by a resolved `Account` record and
`category` by a resolved record or `none`. -/
structure TransactionWithDetails where
  id : Nat
  account : Account
  category : Option Category
  amount : String
  date : String
  description : String
  owner : Nat
deriving DecidableEq, Repr

/-- Payload sent by the transfer form (`CreateTransferData`). -/
structure CreateTransferData where
  from_account : Nat
  to_account : Nat
  amount : String
  date : String
  description : String
deriving DecidableEq, Repr

/-! ## Credential validity check (tokenStorage.hasValidToken, src/lib/auth.ts) -/

/-- Outcome of `JSON.parse(atob(segment))` on the payload segment: either the
decode/parse throws (caught by the source's try/catch, including the case
where the segment is `undefined`), or it yields an object whose `exp` field
is present (`some`) or absent (`none`). The decoder itself is a browser
builtin (`atob`) plus `JSON.parse`, so it is kept abstract as a parameter. -/
inductive DecodeResult where
  | throws
  | parsed (exp : Option Int)
deriving DecidableEq, Repr

/-- Split of a character list on a separator, with the semantics of JS
`String.split` on one-character separators: `"".split('.')` is `[""]`,
`"..".split('.')` is `["", "", ""]`. -/
def splitOnChar (sep : Char) : List Char → List (List Char)
  | [] => [[]]
  | c :: rest =>
    let r := splitOnChar sep rest
    if c == sep then [] :: r
    else
      match r with
      | [] => [[c]]
      | g :: gs => (c :: g) :: gs

/-- Second dot-delimited segment of the token: `token.split('.')[1]`
(`none` models the JS `undefined` when there is no second segment). -/
def payloadSegment (token : String) : Option String :=
  ((splitOnChar '.' token.toList).map (fun g => String.mk g))[1]?

/-- Embedding of `tokenStorage.hasValidToken`: `stored` is the value read
from localStorage (`none` = key absent), `decode` abstracts
`JSON.parse ∘ atob`, and `now` is `Date.now() / 1000`. The empty string is
falsy in JS, so it is rejected by the `if (!token)` guard just like `null`;
a missing `exp` makes `payload.exp > currentTime` compare `undefined`,
which is `false`. -/
def hasValidToken (stored : Option String) (decode : Option String → DecodeResult)
    (now : Int) : Bool :=
  match stored with
  | none => false
  | some token =>
    if token == "" then false
    else
      match decode (payloadSegment token) with
      | .throws => false
      | .parsed none => false
      | .parsed (some e) => now < e

/-! ## HTTP gateway with one-shot renewal (axios interceptors, src/lib/api.ts) -/

/-- An axios error as observed by the response interceptor: the HTTP status
when a response arrived (`none` for transport-level failures where
`error.response` is `undefined`) plus a tag identifying the error object,
so that which error object is propagated is observable. -/
structure ApiError where
  status : Option Nat
  tag : String
deriving DecidableEq, Repr

/-- Result of one dispatch of a request to the server. -/
inductive RespResult where
  | ok
  | err (e : ApiError)
deriving DecidableEq, Repr

/-- The two credential strings held in localStorage (`none` = key absent). -/
structure Tokens where
  access : Option String
  refresh : Option String
deriving DecidableEq, Repr

/-- Abstract server behaviour: `respond n auth` is the server's answer to the
n-th dispatch of the original request carrying bearer token `auth`, and
`refreshResp rt` the answer of the refresh endpoint to refresh token `rt`
(`Except.ok` carries the renewed access token, `Except.error` the error
object rejected by the renewal call). -/
structure Server where
  respond : Nat → Option String → RespResult
  refreshResp : String → Except ApiError String

/-- Observable outcome of pushing one request through the interceptor
pipeline: the settled result, the final localStorage token state, how many
times the original request hit the server, how many renewal calls were
made, and whether a hard redirect to /login was forced. -/
structure GatewayResult where
  outcome : RespResult
  tokens : Tokens
  attempts : Nat
  refreshCalls : Nat
  redirect : Bool
deriving DecidableEq, Repr

/-- Request interceptor: attach the current access token unless the route is
in the PUBLIC_ROUTES allowlist. -/
def requestAuth (tk : Tokens) (isPublic : Bool) : Option String :=
  if isPublic then none else tk.access

/-- Embedding of one request through the axios instance with both
interceptors (api.interceptors.request/response.use). First dispatch goes
out with the current access token. On an error: public routes reject
immediately; a 401 on a not-yet-retried request sets `_retry` and, if a
refresh token is stored, calls the refresh endpoint — on renewal success
the new access token is stored and the original request is replayed once
(the request interceptor re-attaches the renewed token; a second 401 then
rejects because `_retry` is set); on renewal failure both tokens are
cleared, the browser is redirected to /login and the renewal's own error
is rejected. Every other error rejects unchanged. -/
def sendWithRetry (srv : Server) (tk : Tokens) (isPublic : Bool) : GatewayResult :=
  match srv.respond 0 (requestAuth tk isPublic) with
  | .ok => ⟨.ok, tk, 1, 0, false⟩
  | .err e =>
    if isPublic then ⟨.err e, tk, 1, 0, false⟩
    else if e.status == some 401 then
      match tk.refresh with
      | none => ⟨.err e, tk, 1, 0, false⟩
      | some rt =>
        match srv.refreshResp rt with
        | .error re => ⟨.err re, ⟨none, none⟩, 1, 1, true⟩
        | .ok newAccess =>
          match srv.respond 1 (some newAccess) with
          | .ok => ⟨.ok, ⟨some newAccess, some rt⟩, 2, 1, false⟩
          | .err e2 => ⟨.err e2, ⟨some newAccess, some rt⟩, 2, 1, false⟩
    else ⟨.err e, tk, 1, 0, false⟩

/-- Server used to exhibit the renewal-failure propagation: every dispatch of
the original request yields 401 with the original error object, and the
refresh endpoint rejects with its own distinct error object. -/
def failingRefreshServer : Server :=
  ⟨fun _ _ => .err ⟨some 401, "original-error"⟩,
   fun _ => .error ⟨some 401, "refresh-error"⟩⟩

/-- Server whose first dispatch yields 401, whose refresh endpoint succeeds
with a renewed token, and whose replay succeeds. -/
def renewingServer : Server :=
  ⟨fun attempt _ => if attempt == 0 then .err ⟨some 401, "original-error"⟩ else .ok,
   fun _ => .ok "renewed-access"⟩

/-! ## Entity store local reconciliation -/

/-- Comparator used by the category store:
`(a, b) => a.name.localeCompare(b.name)` (locale-naive embedding as string
order on the names). -/
def catLe (a b : Category) : Bool :=
  a.name ≤ b.name

/-- useAccounts.createAccount success path: `setAccounts(prev => [...prev, newAccount])`. -/
def createAccountLocal (newAccount : Account) (prev : List Account) : List Account :=
  prev ++ [newAccount]

/-- useAccounts.updateAccount success path: replace by id. -/
def updateAccountLocal (id : Nat) (updated : Account) (prev : List Account) : List Account :=
  prev.map (fun a => if a.id == id then updated else a)

/-- useAccounts.deleteAccount success path:
`setAccounts(prev => prev.filter(account => account.id !== id))`. -/
def deleteAccountLocal (id : Nat) (prev : List Account) : List Account :=
  prev.filter (fun a => a.id != id)

/-- useCategories.createCategory success path:
`[newCategory, ...prev.categories].sort((a, b) => a.name.localeCompare(b.name))`. -/
def createCategoryLocal (newCategory : Category) (prev : List Category) : List Category :=
  (newCategory :: prev).mergeSort catLe

/-- useCategories.updateCategory success path: replace by id, then re-sort by name. -/
def updateCategoryLocal (id : Nat) (updated : Category) (prev : List Category) : List Category :=
  (prev.map (fun c => if c.id == id then updated else c)).mergeSort catLe

/-- useCategories.deleteCategory success path: filter out the id. -/
def deleteCategoryLocal (id : Nat) (prev : List Category) : List Category :=
  prev.filter (fun c => c.id != id)

/-- useTransfers.createTransfer success path:
`transfers: [newTransfer, ...state.transfers]`. -/
def createTransferLocal (newTransfer : Transfer) (prev : List Transfer) : List Transfer :=
  newTransfer :: prev

/-- useTransfers.deleteTransfer success path: filter out the id. -/
def deleteTransferLocal (id : Nat) (prev : List Transfer) : List Transfer :=
  prev.filter (fun t => t.id != id)

/-- Sentinel record used when a transaction's account id is not in the local
account cache. -/
def unknownAccount (accountId : Nat) : Account :=
  ⟨accountId, "Unknown Account", "0.00", 0⟩

/-- Join of one transaction with the account and category caches
(body of the map in `populateTransactionDetails`): the account is resolved
by id with the sentinel fallback; the category resolves only when the raw
id field is truthy (non-null and non-zero in JS), via find-or-null. -/
def populateOne (accounts : List Account) (categories : List Category)
    (t : Transaction) : TransactionWithDetails :=
  { id := t.id
    account := (accounts.find? (fun a => a.id == t.account)).getD (unknownAccount t.account)
    category :=
      match t.category with
      | none => none
      | some cid => if cid == 0 then none else categories.find? (fun c => c.id == cid)
    amount := t.amount
    date := t.date
    description := t.description
    owner := t.owner }

/-- useTransactions.populateTransactionDetails: map the join over the list. -/
def populateTransactionDetails (accounts : List Account) (categories : List Category)
    (transactions : List Transaction) : List TransactionWithDetails :=
  transactions.map (populateOne accounts categories)

/-- Local state of the transaction store (UseTransactionsState without the
busy/error flags, which carry no collection content). `totalCount` is an
Int because the source clamps it with `Math.max(0, ...)`. -/
structure TxnState where
  transactions : List Transaction
  transactionsWithDetails : List TransactionWithDetails
  totalCount : Int
  hasNext : Bool
  hasPrevious : Bool
deriving DecidableEq, Repr

/-- useTransactions.createTransaction success path: unshift the new record
into both collections and increment totalCount. -/
def createTransactionLocal (accounts : List Account) (categories : List Category)
    (newTransaction : Transaction) (st : TxnState) : TxnState :=
  { st with
    transactions := newTransaction :: st.transactions
    transactionsWithDetails :=
      populateTransactionDetails accounts categories [newTransaction]
        ++ st.transactionsWithDetails
    totalCount := st.totalCount + 1 }

/-- useTransactions.deleteTransaction success path: filter both collections
and clamp totalCount at zero (`Math.max(0, prev.totalCount - 1)`). -/
def deleteTransactionLocal (id : Nat) (st : TxnState) : TxnState :=
  { st with
    transactions := st.transactions.filter (fun t => t.id != id)
    transactionsWithDetails := st.transactionsWithDetails.filter (fun t => t.id != id)
    totalCount := max 0 (st.totalCount - 1) }

/-- Full delete step of the account store: the server call either succeeds
(then the local collection is filtered) or throws (then only the error slot
is set and the collection is untouched). -/
def deleteAccountStep (serverOk : Bool) (id : Nat) (prev : List Account) : List Account :=
  if serverOk then deleteAccountLocal id prev else prev

/-- Full delete step of the category store. -/
def deleteCategoryStep (serverOk : Bool) (id : Nat) (prev : List Category) : List Category :=
  if serverOk then deleteCategoryLocal id prev else prev

/-- Full delete step of the transfer store. -/
def deleteTransferStep (serverOk : Bool) (id : Nat) (prev : List Transfer) : List Transfer :=
  if serverOk then deleteTransferLocal id prev else prev

/-- Full delete step of the transaction store. -/
def deleteTransactionStep (serverOk : Bool) (id : Nat) (st : TxnState) : TxnState :=
  if serverOk then deleteTransactionLocal id st else st

/-! ## fetchAll response-shape handling -/

/-- Response of the transaction list endpoint: a flat array or a paginated
envelope `{count, next, previous, results}` (`next`/`previous` are
string-or-null page URLs). -/
inductive TxnListResponse where
  | flat (items : List Transaction)
  | paginated (count : Nat) (next : Option String) (previous : Option String)
      (results : List Transaction)
deriving DecidableEq, Repr

/-- Response of the transfer list endpoint, same two possible shapes. -/
inductive TransferListResponse where
  | flat (items : List Transfer)
  | paginated (count : Nat) (next : Option String) (previous : Option String)
      (results : List Transfer)
deriving DecidableEq, Repr

/-- JS double-negation truthiness of a string-or-null value
(`!!response.next`): null and the empty string are falsy. -/
def jsTruthyStr : Option String → Bool
  | none => false
  | some s => s != ""

/-- useTransactions.fetchTransactions reconciliation: the envelope is
detected by `'results' in response`; a flat list is stored with
totalCount = its length and both page flags false, an envelope is
normalized to its results with the envelope's count and the truthiness of
its next/previous URLs. -/
def fetchTransactionsLocal (accounts : List Account) (categories : List Category)
    (resp : TxnListResponse) (st : TxnState) : TxnState :=
  match resp with
  | .flat items =>
    { st with
      transactions := items
      transactionsWithDetails := populateTransactionDetails accounts categories items
      totalCount := (items.length : Int)
      hasNext := false
      hasPrevious := false }
  | .paginated count next previous results =>
    { st with
      transactions := results
      transactionsWithDetails := populateTransactionDetails accounts categories results
      totalCount := (count : Int)
      hasNext := jsTruthyStr next
      hasPrevious := jsTruthyStr previous }

/-- useTransfers.fetchTransfers reconciliation:
`transfers: Array.isArray(transfers) ? transfers : []` — a flat array is
kept, anything else (in particular a paginated envelope, which is a plain
object) resets the collection to empty; no count or page flags are stored. -/
def fetchTransfersLocal (resp : TransferListResponse) : List Transfer :=
  match resp with
  | .flat items => items
  | .paginated _ _ _ _ => []

/-! ## Transfer form boundary check (Transfers.tsx handleSubmit) -/

/-- JS falsiness of the `number | ''` account-select state: the empty string
(modelled as `none`) and the number 0 are falsy. -/
def jsFalsyId : Option Nat → Bool
  | none => true
  | some n => n == 0

/-- Observable outcome of one handleSubmit call: the user-facing validation
toast raised before any network activity (if any) and the request payload
handed to the gateway (`none` = no network call issued). -/
structure SubmitOutcome where
  toastError : Option String
  request : Option CreateTransferData
deriving DecidableEq, Repr

/-- Embedding of Transfers.tsx handleSubmit for the create path: the
incomplete-form guard (`!fromAccountId || !toAccountId || amount === ''`)
returns silently; then the same-account guard raises the validation toast
and returns before any network call; otherwise the payload is built (the
description defaults to "from → to" using the account names when left
empty) and sent. -/
def handleTransferSubmit (fromAccountId toAccountId : Option Nat)
    (amount date description : String) (accounts : List Account) : SubmitOutcome :=
  if jsFalsyId fromAccountId || jsFalsyId toAccountId || amount == "" then
    ⟨none, none⟩
  else if fromAccountId == toAccountId then
    ⟨some "Source and destination accounts must be different", none⟩
  else
    match fromAccountId, toAccountId with
    | some f, some t =>
      let fromAcc := accounts.find? (fun a => a.id == f)
      let toAcc := accounts.find? (fun a => a.id == t)
      let desc :=
        if description != "" then description
        else
          match fromAcc, toAcc with
          | some fa, some ta => fa.name ++ " → " ++ ta.name
          | _, _ => ""
      ⟨none, some ⟨f, t, amount, date, desc⟩⟩
    | _, _ => ⟨none, none⟩

/-- Effect of a handleSubmit outcome on the local transfer collection: only
an issued request that the server answers with a created record prepends to
the collection (useTransfers.createTransfer); no request means the store is
never touched. -/
def transfersAfterSubmit (o : SubmitOutcome) (serverResult : Option Transfer)
    (coll : List Transfer) : List Transfer :=
  match o.request with
  | none => coll
  | some _ =>
    match serverResult with
    | some newTransfer => createTransferLocal newTransfer coll
    | none => coll

/-! ## Dashboard aggregation (Dashboard component) -/

/-- Numeric value of a decimal digit character. -/
def digitVal (c : Char) : Nat :=
  c.toNat - '0'.toNat

/-- Natural number denoted by a digit list (most significant first). -/
def natOfDigits (ds : List Char) : Nat :=
  ds.foldl (fun acc c => 10 * acc + digitVal c) 0

/-- Power of ten, written structurally. -/
def pow10 : Nat → Nat
  | 0 => 1
  | n + 1 => 10 * pow10 n

/-- Embedding of JS `parseFloat` on the decimal strings this codebase feeds
it (optional sign, digits, optional fractional part; any trailing garbage
is ignored as parseFloat does): `none` models NaN. Values are exact
rationals rather than IEEE doubles; every balance/amount literal occurring
in the claims is exactly representable in both. -/
def parseDecimal (s : String) : Option Rat :=
  let cs := s.toList
  let signAndRest : Bool × List Char :=
    match cs with
    | '-' :: rest => (true, rest)
    | '+' :: rest => (false, rest)
    | _ => (false, cs)
  let neg := signAndRest.1
  let body := signAndRest.2
  let intDigits := body.takeWhile Char.isDigit
  let afterInt := body.dropWhile Char.isDigit
  let fracDigits :=
    match afterInt with
    | '.' :: r => r.takeWhile Char.isDigit
    | _ => []
  if intDigits.isEmpty && fracDigits.isEmpty then none
  else
    let v : Rat :=
      mkRat (natOfDigits intDigits * pow10 fracDigits.length + natOfDigits fracDigits)
        (pow10 fracDigits.length)
    some (if neg then -v else v)

/-- Parsed balance of an account. -/
def parsedBalance (a : Account) : Option Rat :=
  parseDecimal a.balance

/-- JS comparison `parseFloat(x) > 0`: false on NaN. -/
def jsGtZero : Option Rat → Bool
  | none => false
  | some v => decide (0 < v)

/-- JS comparison `parseFloat(x) < 0`: false on NaN. -/
def jsLtZero : Option Rat → Bool
  | none => false
  | some v => decide (v < 0)

/-- JS `Math.abs` on a finite number. -/
def jsAbs (v : Rat) : Rat :=
  if v < 0 then -v else v

/-- Year and month (as written, 1-based) of a `YYYY-MM-DD` date string via
`date.split('-').map(Number)`. -/
def dateYearMonth (date : String) : Option (Nat × Nat) :=
  match splitOnChar '-' date.toList with
  | y :: m :: _ =>
    some (natOfDigits (y.takeWhile Char.isDigit),
          natOfDigits (m.takeWhile Char.isDigit))
  | _ => none

/-- Predicate of the current-month filter in the dashboard:
`new Date(year, month-1, day)` compared against the 0-based current month
`cm` and current year `cy` (Date normalization of out-of-range months is
not modelled; claim inputs stay within 1..12). -/
def txInCurrentMonth (cy cm : Nat) (t : TransactionWithDetails) : Bool :=
  match dateYearMonth t.date with
  | some (y, m) => y == cy && m - 1 == cm
  | none => false

/-- The true branch of `transaction.category?.type === 'INCOME'`. -/
def isIncomeTx (t : TransactionWithDetails) : Bool :=
  match t.category with
  | some c => c.ctype == CategoryType.INCOME
  | none => false

/-- The true branch of `transaction.category?.type === 'EXPENSE'`. -/
def isExpenseTx (t : TransactionWithDetails) : Bool :=
  match t.category with
  | some c => c.ctype == CategoryType.EXPENSE
  | none => false

/-- The six figures computed by the Dashboard's `dashboardMetrics` memo. -/
structure DashboardMetrics where
  totalAssets : Rat
  totalLiabilities : Rat
  netWorth : Rat
  monthlyIncome : Rat
  monthlyExpenses : Rat
  monthlyCashFlow : Rat
deriving DecidableEq, Repr

/-- Embedding of the Dashboard's `dashboardMetrics` memo: assets are the sum
of positive parsed balances, liabilities the absolute value of the sum of
negative parsed balances, netWorth their difference; the monthly figures
sum the amounts of current-month transactions whose category type is
INCOME resp. EXPENSE, with the current wall-clock year `cy` and 0-based
month `cm` passed explicitly. -/
def dashboardMetrics (accounts : List Account) (txs : List TransactionWithDetails)
    (cy cm : Nat) : DashboardMetrics :=
  let totalAssets :=
    (accounts.filter (fun a => jsGtZero (parsedBalance a))).foldl
      (fun s a => s + (parsedBalance a).getD 0) 0
  let totalLiabilities :=
    jsAbs ((accounts.filter (fun a => jsLtZero (parsedBalance a))).foldl
      (fun s a => s + (parsedBalance a).getD 0) 0)
  let netWorth := totalAssets - totalLiabilities
  let currentMonthTransactions := txs.filter (txInCurrentMonth cy cm)
  let monthlyIncome :=
    (currentMonthTransactions.filter isIncomeTx).foldl
      (fun s t => s + (parseDecimal t.amount).getD 0) 0
  let monthlyExpenses :=
    (currentMonthTransactions.filter isExpenseTx).foldl
      (fun s t => s + (parseDecimal t.amount).getD 0) 0
  { totalAssets := totalAssets
    totalLiabilities := totalLiabilities
    netWorth := netWorth
    monthlyIncome := monthlyIncome
    monthlyExpenses := monthlyExpenses
    monthlyCashFlow := monthlyIncome - monthlyExpenses }

/-! ## totalCount bookkeeping of the transaction store -/

/-- Mutations of the transaction store that touch the stored total count:
a successful create and a successful delete. -/
inductive TxnOp where
  | createOk
  | deleteOk
deriving DecidableEq, Repr

/-- Effect of one successful mutation on totalCount:
create does `prev.totalCount + 1`, delete does `Math.max(0, prev.totalCount - 1)`. -/
def totalCountStep (c : Int) : TxnOp → Int
  | .createOk => c + 1
  | .deleteOk => max 0 (c - 1)

/-! ## Concrete fixtures used in closed statements -/

/-- Sample account with a positive balance. -/
def acct1 : Account := ⟨1, "Checking", "100.00", 1⟩

/-- Sample account with a negative balance. -/
def acct2 : Account := ⟨2, "Credit", "-30.00", 1⟩

/-- Sample account not involved in the deletes aimed at id 1. -/
def acct3 : Account := ⟨2, "Savings", "50.00", 1⟩

/-- Sample expense category. -/
def cat5 : Category := ⟨5, "Food", .EXPENSE, 1⟩

/-- Sample transaction referencing acct1 and cat5 by id. -/
def tx1 : Transaction := ⟨1, 1, some 5, "10.00", "2024-01-15", "lunch", 1⟩

/-- Sample transfer between accounts 1 and 2. -/
def tr1 : Transfer := ⟨1, 1, 2, "5.00", "2024-01-15", "", 1⟩

/-- Sample transaction-store state holding exactly tx1. -/
def sampleTxnState : TxnState :=
  ⟨[tx1], populateTransactionDetails [acct1] [cat5] [tx1], 1, false, false⟩

/-! ## Helper lemmas -/

/-- Filtering out the records matching an id shortens a list by exactly the
number of matching records. -/
theorem length_filter_bne_add_countP {α : Type} (f : α → Nat) (i : Nat) (l : List α) :
    (l.filter (fun a => f a != i)).length + l.countP (fun a => f a == i) = l.length := by
  induction l with
  | nil => rfl
  | cons x xs ih =>
    rw [List.filter_cons, List.countP_cons]
    cases h : (f x == i) with
    | true =>
      have hb : (f x != i) = false := by simp [bne, h]
      simp only [hb, h, if_false, if_true, Bool.false_eq_true, List.length_cons]
      omega
    | false =>
      have hb : (f x != i) = true := by simp [bne, h]
      simp only [hb, h, if_false, if_true, Bool.false_eq_true, List.length_cons]
      omega

/-- The category comparator is transitive. -/
theorem catLe_trans : ∀ (a b c : Category),
    catLe a b = true → catLe b c = true → catLe a c = true := by
  intro a b c hab hbc
  simp only [catLe, decide_eq_true_eq] at hab hbc ⊢
  exact le_trans hab hbc

/-- The category comparator is total. -/
theorem catLe_total : ∀ (a b : Category), (catLe a b || catLe b a) = true := by
  intro a b
  simp only [catLe, Bool.or_eq_true, decide_eq_true_eq]
  exact le_total a.name b.name

/-- Folding successful create/delete mutations over a nonnegative count
keeps it nonnegative. -/
theorem foldl_totalCountStep_nonneg (ops : List TxnOp) :
    ∀ c : Int, 0 ≤ c → 0 ≤ ops.foldl totalCountStep c := by
  induction ops with
  | nil => intro c hc; simpa using hc
  | cons op rest ih =>
    intro c hc
    refine ih (totalCountStep c op) ?_
    cases op with
    | createOk => simp only [totalCountStep]; omega
    | deleteOk => exact le_max_left 0 (c - 1)

/-! ## Claim theorems -/

/-- Claim C1, counterexample to the claim as stated: with a stored refresh
credential, an original request answered 401 and a failing renewal, the
gateway clears both credentials but settles with the renewal call's own
error object, not the original failure. -/
theorem gateway_propagates_renewal_error :
    (sendWithRetry failingRefreshServer ⟨some "acc", some "ref"⟩ false).tokens = ⟨none, none⟩ ∧
    (sendWithRetry failingRefreshServer ⟨some "acc", some "ref"⟩ false).outcome =
      .err ⟨some 401, "refresh-error"⟩ ∧
    (sendWithRetry failingRefreshServer ⟨some "acc", some "ref"⟩ false).outcome ≠
      .err ⟨some 401, "original-error"⟩ := by
  decide

/-- Claim C1 (amended): for a non-public request issued while a refresh
credential is stored, a 401 answer triggers exactly one renewal call; on
renewal success the renewed access credential is stored and the original
request is replayed exactly once carrying it; on renewal failure both
credentials are cleared, the browser is redirected and the renewal failure
(not the original one) propagates; and no request ever hits the server
more than twice, even under persistent 401s. -/
theorem gateway_one_shot_renewal (srv : Server) (tk : Tokens) (rt : String) (e : ApiError)
    (hrt : tk.refresh = some rt) (h401 : e.status = some 401)
    (h0 : srv.respond 0 (requestAuth tk false) = .err e) :
    (∀ na, srv.refreshResp rt = .ok na →
        sendWithRetry srv tk false =
          ⟨srv.respond 1 (some na), ⟨some na, some rt⟩, 2, 1, false⟩)
  ∧ (∀ re, srv.refreshResp rt = .error re →
        sendWithRetry srv tk false = ⟨.err re, ⟨none, none⟩, 1, 1, true⟩)
  ∧ ∀ (srv2 : Server) (tk2 : Tokens) (isPublic : Bool),
      (sendWithRetry srv2 tk2 isPublic).attempts ≤ 2 := by
  refine ⟨?_, ?_, ?_⟩
  · intro na hna
    simp only [sendWithRetry, h0, h401, hrt, hna, beq_self_eq_true, if_true, if_false,
      Bool.false_eq_true]
    cases h1 : srv.respond 1 (some na) <;> simp [h1]
  · intro re hre
    simp only [sendWithRetry, h0, h401, hrt, hre, beq_self_eq_true, if_true, if_false,
      Bool.false_eq_true]
  · intro srv2 tk2 isPublic
    unfold sendWithRetry
    cases h : srv2.respond 0 (requestAuth tk2 isPublic) with
    | ok => simp
    | err e1 =>
      cases isPublic with
      | true => simp
      | false =>
        cases h4 : (e1.status == some 401) with
        | false => simp [h4]
        | true =>
          cases hr : tk2.refresh with
          | none => simp [h4]
          | some rt2 =>
            cases hrr : srv2.refreshResp rt2 with
            | error re => simp [h4, hrr]
            | ok na =>
              cases h1 : srv2.respond 1 (some na) <;> simp [h4, hrr, h1]

/-- Claim C1 witness: a concrete server that 401s once, renews successfully
and accepts the replay drives the gateway to a success with the renewed
credential stored, two dispatches and one renewal call. -/
theorem gateway_one_shot_renewal_witness :
    sendWithRetry renewingServer ⟨some "old-access", some "ref"⟩ false =
      ⟨.ok, ⟨some "renewed-access", some "ref"⟩, 2, 1, false⟩ ∧
    sendWithRetry failingRefreshServer ⟨some "acc", some "ref"⟩ false =
      ⟨.err ⟨some 401, "refresh-error"⟩, ⟨none, none⟩, 1, 1, true⟩ := by
  have h1 := gateway_one_shot_renewal renewingServer ⟨some "old-access", some "ref"⟩
    "ref" ⟨some 401, "original-error"⟩ rfl rfl rfl
  have h2 := gateway_one_shot_renewal failingRefreshServer ⟨some "acc", some "ref"⟩
    "ref" ⟨some 401, "original-error"⟩ rfl rfl rfl
  exact ⟨(h1.1 "renewed-access" rfl).trans rfl, h2.2.1 ⟨some 401, "refresh-error"⟩ rfl⟩

/-- Claim C2, counterexample to the claim as stated: a successful delete of
an id that has no matching record in the local collection (stale local
state) leaves the collection — and hence its length — unchanged, so the
length does not decrease by exactly one. -/
theorem delete_stale_id_keeps_length :
    deleteAccountStep true 1 [acct3] = [acct3] ∧
    ¬ ((deleteAccountStep true 1 [acct3]).length + 1 = ([acct3] : List Account).length) := by
  decide

/-- Claim C2 (amended): in every entity store, a delete whose server request
succeeds removes every record bearing the id from the local collection,
and when the collection held exactly one record with that id the length
decreases by exactly one; a delete whose server request fails leaves the
collection exactly as it was. -/
theorem delete_removes_id_and_decrements :
    (∀ (id : Nat) (prev : List Account), prev.countP (fun a => a.id == id) = 1 →
        (deleteAccountStep true id prev).length + 1 = prev.length ∧
        ∀ a ∈ deleteAccountStep true id prev, a.id ≠ id)
  ∧ (∀ (id : Nat) (prev : List Category), prev.countP (fun c => c.id == id) = 1 →
        (deleteCategoryStep true id prev).length + 1 = prev.length ∧
        ∀ c ∈ deleteCategoryStep true id prev, c.id ≠ id)
  ∧ (∀ (id : Nat) (prev : List Transfer), prev.countP (fun t => t.id == id) = 1 →
        (deleteTransferStep true id prev).length + 1 = prev.length ∧
        ∀ t ∈ deleteTransferStep true id prev, t.id ≠ id)
  ∧ (∀ (id : Nat) (st : TxnState), st.transactions.countP (fun t => t.id == id) = 1 →
        (deleteTransactionStep true id st).transactions.length + 1 = st.transactions.length ∧
        ∀ t ∈ (deleteTransactionStep true id st).transactions, t.id ≠ id)
  ∧ (∀ (id : Nat) (prev : List Account), deleteAccountStep false id prev = prev)
  ∧ (∀ (id : Nat) (prev : List Category), deleteCategoryStep false id prev = prev)
  ∧ (∀ (id : Nat) (prev : List Transfer), deleteTransferStep false id prev = prev)
  ∧ (∀ (id : Nat) (st : TxnState), deleteTransactionStep false id st = st) := by
  refine ⟨?_, ?_, ?_, ?_, fun id prev => rfl, fun id prev => rfl, fun id prev => rfl,
    fun id st => rfl⟩
  · intro id prev hcount
    constructor
    · have h := length_filter_bne_add_countP Account.id id prev
      simp only [deleteAccountStep, deleteAccountLocal, if_true]
      omega
    · intro a ha
      simp only [deleteAccountStep, deleteAccountLocal, if_true] at ha
      have := List.of_mem_filter ha
      simpa using this
  · intro id prev hcount
    constructor
    · have h := length_filter_bne_add_countP Category.id id prev
      simp only [deleteCategoryStep, deleteCategoryLocal, if_true]
      omega
    · intro c hc
      simp only [deleteCategoryStep, deleteCategoryLocal, if_true] at hc
      have := List.of_mem_filter hc
      simpa using this
  · intro id prev hcount
    constructor
    · have h := length_filter_bne_add_countP Transfer.id id prev
      simp only [deleteTransferStep, deleteTransferLocal, if_true]
      omega
    · intro t ht
      simp only [deleteTransferStep, deleteTransferLocal, if_true] at ht
      have := List.of_mem_filter ht
      simpa using this
  · intro id st hcount
    constructor
    · have h := length_filter_bne_add_countP Transaction.id id st.transactions
      simp only [deleteTransactionStep, deleteTransactionLocal, if_true]
      omega
    · intro t ht
      simp only [deleteTransactionStep, deleteTransactionLocal, if_true] at ht
      have := List.of_mem_filter ht
      simpa using this

/-- Claim C2 witness: concrete one-element collections with the deleted id
present exactly once, in all four stores. -/
theorem delete_removes_id_and_decrements_witness :
    ((deleteAccountStep true 1 [acct1]).length + 1 = ([acct1] : List Account).length ∧
      ∀ a ∈ deleteAccountStep true 1 [acct1], a.id ≠ 1)
  ∧ ((deleteCategoryStep true 5 [cat5]).length + 1 = ([cat5] : List Category).length ∧
      ∀ c ∈ deleteCategoryStep true 5 [cat5], c.id ≠ 5)
  ∧ ((deleteTransferStep true 1 [tr1]).length + 1 = ([tr1] : List Transfer).length ∧
      ∀ t ∈ deleteTransferStep true 1 [tr1], t.id ≠ 1)
  ∧ ((deleteTransactionStep true 1 sampleTxnState).transactions.length + 1 =
        sampleTxnState.transactions.length ∧
      ∀ t ∈ (deleteTransactionStep true 1 sampleTxnState).transactions, t.id ≠ 1) := by
  have h := delete_removes_id_and_decrements
  exact ⟨h.1 1 [acct1] (by decide), h.2.1 5 [cat5] (by decide),
    h.2.2.1 1 [tr1] (by decide), h.2.2.2.1 1 sampleTxnState (by decide)⟩

/-- Claim C3 (confirmed): in every entity store, a create whose server
request succeeds puts the returned record's id into the local collection
and grows the collection by exactly one (the category store re-sorts but
neither drops nor duplicates). -/
theorem create_adds_record_and_increments :
    (∀ (n : Account) (prev : List Account),
        n.id ∈ (createAccountLocal n prev).map Account.id ∧
        (createAccountLocal n prev).length = prev.length + 1)
  ∧ (∀ (n : Category) (prev : List Category),
        n.id ∈ (createCategoryLocal n prev).map Category.id ∧
        (createCategoryLocal n prev).length = prev.length + 1)
  ∧ (∀ (n : Transfer) (prev : List Transfer),
        n.id ∈ (createTransferLocal n prev).map Transfer.id ∧
        (createTransferLocal n prev).length = prev.length + 1)
  ∧ (∀ (accounts : List Account) (categories : List Category) (n : Transaction)
        (st : TxnState),
        n.id ∈ (createTransactionLocal accounts categories n st).transactions.map
          Transaction.id ∧
        (createTransactionLocal accounts categories n st).transactions.length =
          st.transactions.length + 1) := by
  refine ⟨?_, ?_, ?_, ?_⟩
  · intro n prev
    exact ⟨List.mem_map_of_mem Account.id (by simp [createAccountLocal]),
      by simp [createAccountLocal]⟩
  · intro n prev
    constructor
    · exact List.mem_map_of_mem Category.id
        (List.mem_mergeSort.mpr (List.mem_cons_self n prev))
    · simp [createCategoryLocal, List.length_mergeSort]
  · intro n prev
    exact ⟨List.mem_map_of_mem Transfer.id (List.mem_cons_self n prev), rfl⟩
  · intro accounts categories n st
    exact ⟨List.mem_map_of_mem Transaction.id (List.mem_cons_self n st.transactions), rfl⟩

/-- Claim C4, counterexample to the claim as stated: the account store does
not unshift — a successful create appends the returned record to the back
of the collection, so with a nonempty previous collection the new record
is not at the front. -/
theorem create_account_appends_not_unshifts :
    createAccountLocal acct2 [acct1] = [acct1, acct2] ∧
    (createAccountLocal acct2 [acct1]).head? ≠ some acct2 := by
  decide

/-- Claim C4 (amended): the transaction and transfer stores unshift the
server-returned record to the front of the collection; the account store
appends it to the back (preserving the previous front); the category store
keeps its collection a name-sorted permutation after every create, and
name-sorted after every update. -/
theorem create_ordering_per_store :
    (∀ (accounts : List Account) (categories : List Category) (n : Transaction)
        (st : TxnState),
        (createTransactionLocal accounts categories n st).transactions.head? = some n)
  ∧ (∀ (n : Transfer) (prev : List Transfer), (createTransferLocal n prev).head? = some n)
  ∧ (∀ (n : Account) (prev : List Account),
        (createAccountLocal n prev).getLast? = some n ∧
        (prev ≠ [] → (createAccountLocal n prev).head? = prev.head?))
  ∧ (∀ (n : Category) (prev : List Category),
        (createCategoryLocal n prev).Perm (n :: prev) ∧
        (createCategoryLocal n prev).Pairwise (fun a b => catLe a b = true))
  ∧ (∀ (id : Nat) (u : Category) (prev : List Category),
        (updateCategoryLocal id u prev).Pairwise (fun a b => catLe a b = true)) := by
  refine ⟨fun accounts categories n st => rfl, fun n prev => rfl, ?_, ?_, ?_⟩
  · intro n prev
    refine ⟨List.getLast?_concat prev, fun hne => ?_⟩
    cases prev with
    | nil => exact absurd rfl hne
    | cons x xs => rfl
  · intro n prev
    exact ⟨List.mergeSort_perm (n :: prev) catLe,
      List.sorted_mergeSort catLe_trans catLe_total (n :: prev)⟩
  · intro id u prev
    exact List.sorted_mergeSort catLe_trans catLe_total _

/-- Claim C4 witness: appending to a concrete nonempty account collection
keeps the previous front element in front and puts the new record last. -/
theorem create_ordering_per_store_witness :
    (createAccountLocal acct2 [acct1]).getLast? = some acct2 ∧
    (createAccountLocal acct2 [acct1]).head? = ([acct1] : List Account).head? := by
  have h := create_ordering_per_store
  exact ⟨(h.2.2.1 acct2 [acct1]).1, (h.2.2.1 acct2 [acct1]).2 (by decide)⟩

/-- Claim C5, counterexample to the claim as stated: the transfer store does
not normalize a paginated envelope — it resets its collection to empty
instead of keeping the envelope's records, and stores no count or page
flags. -/
theorem fetch_transfers_envelope_resets :
    fetchTransfersLocal (.paginated 1 none none [tr1]) = [] ∧
    fetchTransfersLocal (.paginated 1 none none [tr1]) ≠ [tr1] := by
  decide

/-- Claim C5 (amended): the transaction store's fetchAll handles both
response shapes — a flat list replaces the collection and stores its
length with both page flags false, a paginated envelope (detected by its
results field) stores its records, its count and the truthiness of its
next/previous URLs; the transfer store keeps a flat array response as its
collection and resets to empty on an envelope. -/
theorem fetch_shape_normalization :
    (∀ (accounts : List Account) (categories : List Category)
        (items : List Transaction) (st : TxnState),
        (fetchTransactionsLocal accounts categories (.flat items) st).transactions = items ∧
        (fetchTransactionsLocal accounts categories (.flat items) st).totalCount =
          (items.length : Int) ∧
        (fetchTransactionsLocal accounts categories (.flat items) st).hasNext = false ∧
        (fetchTransactionsLocal accounts categories (.flat items) st).hasPrevious = false)
  ∧ (∀ (accounts : List Account) (categories : List Category) (count : Nat)
        (next previous : Option String) (results : List Transaction) (st : TxnState),
        (fetchTransactionsLocal accounts categories
            (.paginated count next previous results) st).transactions = results ∧
        (fetchTransactionsLocal accounts categories
            (.paginated count next previous results) st).totalCount = (count : Int) ∧
        (fetchTransactionsLocal accounts categories
            (.paginated count next previous results) st).hasNext = jsTruthyStr next ∧
        (fetchTransactionsLocal accounts categories
            (.paginated count next previous results) st).hasPrevious = jsTruthyStr previous)
  ∧ (∀ items : List Transfer, fetchTransfersLocal (.flat items) = items)
  ∧ (∀ (count : Nat) (next previous : Option String) (results : List Transfer),
        fetchTransfersLocal (.paginated count next previous results) = []) := by
  exact ⟨fun accounts categories items st => ⟨rfl, rfl, rfl, rfl⟩,
    fun accounts categories count next previous results st => ⟨rfl, rfl, rfl, rfl⟩,
    fun items => rfl,
    fun count next previous results => rfl⟩

/-- Claim C6 (confirmed): every record output by populateTransactionDetails
carries an account whose id equals the source transaction's account id and
which is either taken from the account cache or is the sentinel
"Unknown Account" record, and a category that is either none or a cache
record whose id the transaction references. -/
theorem populate_details_resolution
    (accounts : List Account) (categories : List Category) (ts : List Transaction)
    (r : TransactionWithDetails)
    (hr : r ∈ populateTransactionDetails accounts categories ts) :
    ∃ t ∈ ts,
      r.account.id = t.account ∧
      (r.account ∈ accounts ∨ r.account = unknownAccount t.account) ∧
      (r.category = none ∨ ∃ c ∈ categories, r.category = some c ∧ t.category = some c.id) := by
  simp only [populateTransactionDetails, List.mem_map] at hr
  obtain ⟨t, ht, hrt⟩ := hr
  refine ⟨t, ht, ?_, ?_, ?_⟩ <;> subst hrt
  · simp only [populateOne]
    cases hf : accounts.find? (fun a => a.id == t.account) with
    | none => simp [hf, unknownAccount]
    | some a =>
      have ha := List.find?_some hf
      simp only [beq_iff_eq] at ha
      simp [hf, ha]
  · simp only [populateOne]
    cases hf : accounts.find? (fun a => a.id == t.account) with
    | none => right; simp [hf]
    | some a =>
      left
      simpa [hf] using List.mem_of_find?_eq_some hf
  · simp only [populateOne]
    cases hc : t.category with
    | none => left; rfl
    | some cid =>
      by_cases h0 : cid = 0
      · left; simp [h0]
      · have hb : (cid == 0) = false := beq_eq_false_iff_ne.mpr h0
        cases hf : categories.find? (fun c => c.id == cid) with
        | none => left; simp [hb, hf]
        | some c =>
          right
          have hcid := List.find?_some hf
          simp only [beq_iff_eq] at hcid
          exact ⟨c, List.mem_of_find?_eq_some hf, by simp [hb, hf], by rw [hcid]⟩

/-- Claim C6 witness: a concrete transaction joined against empty caches
resolves to the sentinel account and a none category. -/
theorem populate_details_resolution_witness :
    ∃ t ∈ [tx1],
      (populateOne [] [] tx1).account.id = t.account ∧
      ((populateOne [] [] tx1).account ∈ ([] : List Account) ∨
        (populateOne [] [] tx1).account = unknownAccount t.account) ∧
      ((populateOne [] [] tx1).category = none ∨
        ∃ c ∈ ([] : List Category), (populateOne [] [] tx1).category = some c ∧
          t.category = some c.id) := by
  exact populate_details_resolution [] [] [tx1] (populateOne [] [] tx1) (by decide)

/-- Claim C7 (confirmed): a completed transfer form (both accounts selected,
nonempty amount) whose source account equals its destination account is
rejected by handleSubmit with the user-facing validation message before
any network call — no request payload is handed to the gateway and the
local transfer collection is left exactly as it was. -/
theorem transfer_same_account_rejected (f : Nat) (hf : f ≠ 0)
    (amount date description : String) (ha : amount ≠ "") (accounts : List Account) :
    handleTransferSubmit (some f) (some f) amount date description accounts =
      ⟨some "Source and destination accounts must be different", none⟩ ∧
    ∀ (serverResult : Option Transfer) (coll : List Transfer),
      transfersAfterSubmit
        (handleTransferSubmit (some f) (some f) amount date description accounts)
        serverResult coll = coll := by
  have h1 : jsFalsyId (some f) = false := by
    simp only [jsFalsyId]
    exact beq_eq_false_iff_ne.mpr hf
  have h2 : (amount == "") = false := beq_eq_false_iff_ne.mpr ha
  have hmain : handleTransferSubmit (some f) (some f) amount date description accounts =
      ⟨some "Source and destination accounts must be different", none⟩ := by
    simp [handleTransferSubmit, h1, h2]
  exact ⟨hmain, fun serverResult coll => by simp [transfersAfterSubmit, hmain]⟩

/-- Claim C7 witness: the concrete submission from account 1 to account 1
with a nonempty amount raises the validation message, issues no request
and leaves a concrete collection unchanged. -/
theorem transfer_same_account_rejected_witness :
    handleTransferSubmit (some 1) (some 1) "10.00" "2024-01-15" "" [] =
      ⟨some "Source and destination accounts must be different", none⟩ ∧
    transfersAfterSubmit (handleTransferSubmit (some 1) (some 1) "10.00" "2024-01-15" "" [])
      none [tr1] = [tr1] := by
  have h := transfer_same_account_rejected 1 (by decide) "10.00" "2024-01-15" "" (by decide) []
  exact ⟨h.1, h.2 none [tr1]⟩

/-- Claim C8 (confirmed): the credential validity check fails closed — it is
false when no credential is stored (or the stored string is empty/falsy),
when decoding or parsing the dot-delimited payload throws, and when the
parsed payload has no expiry field; when an expiry is present the result
is exactly the comparison of the expiry against the current time; and the
result depends only on the payload segment, never on the signature
segment. -/
theorem has_valid_token_fails_closed (decode : Option String → DecodeResult) (now : Int) :
    hasValidToken none decode now = false
  ∧ hasValidToken (some "") decode now = false
  ∧ (∀ t : String, decode (payloadSegment t) = .throws →
        hasValidToken (some t) decode now = false)
  ∧ (∀ t : String, decode (payloadSegment t) = .parsed none →
        hasValidToken (some t) decode now = false)
  ∧ (∀ (t : String) (e : Int), t ≠ "" → decode (payloadSegment t) = .parsed (some e) →
        (hasValidToken (some t) decode now = true ↔ now < e))
  ∧ (∀ t1 t2 : String, t1 ≠ "" → t2 ≠ "" → payloadSegment t1 = payloadSegment t2 →
        hasValidToken (some t1) decode now = hasValidToken (some t2) decode now) := by
  refine ⟨rfl, by simp [hasValidToken], ?_, ?_, ?_, ?_⟩
  · intro t hdec
    by_cases ht : t = ""
    · subst ht; simp [hasValidToken]
    · have hb : (t == "") = false := beq_eq_false_iff_ne.mpr ht
      simp [hasValidToken, hb, hdec]
  · intro t hdec
    by_cases ht : t = ""
    · subst ht; simp [hasValidToken]
    · have hb : (t == "") = false := beq_eq_false_iff_ne.mpr ht
      simp [hasValidToken, hb, hdec]
  · intro t e ht hdec
    have hb : (t == "") = false := beq_eq_false_iff_ne.mpr ht
    simp [hasValidToken, hb, hdec]
  · intro t1 t2 h1 h2 hseg
    have hb1 : (t1 == "") = false := beq_eq_false_iff_ne.mpr h1
    have hb2 : (t2 == "") = false := beq_eq_false_iff_ne.mpr h2
    simp [hasValidToken, hb1, hb2, hseg]

/-- Claim C8 witness: concrete decoders exercising the throw case, the
missing-expiry case, the expiry comparison and the signature-independence
on concrete three-segment tokens. -/
theorem has_valid_token_fails_closed_witness :
    hasValidToken (some "aaa.bbb.ccc") (fun _ => DecodeResult.throws) 0 = false
  ∧ hasValidToken (some "aaa.bbb.ccc") (fun _ => DecodeResult.parsed none) 0 = false
  ∧ (hasValidToken (some "aaa.bbb.ccc") (fun _ => DecodeResult.parsed (some 10)) 0 = true ↔
      (0 : Int) < 10)
  ∧ hasValidToken (some "aaa.bbb.sig1") (fun _ => DecodeResult.parsed (some 10)) 0 =
      hasValidToken (some "aaa.bbb.sig2") (fun _ => DecodeResult.parsed (some 10)) 0 := by
  have h1 := has_valid_token_fails_closed (fun _ => DecodeResult.throws) 0
  have h2 := has_valid_token_fails_closed (fun _ => DecodeResult.parsed none) 0
  have h3 := has_valid_token_fails_closed (fun _ => DecodeResult.parsed (some 10)) 0
  exact ⟨h1.2.2.1 "aaa.bbb.ccc" rfl, h2.2.2.2.1 "aaa.bbb.ccc" rfl,
    h3.2.2.2.2.1 "aaa.bbb.ccc" 10 (by decide) rfl,
    h3.2.2.2.2.2 "aaa.bbb.sig1" "aaa.bbb.sig2" (by decide) (by decide) (by decide)⟩

/-- Claim C9 (confirmed): for the two-account scenario with balances
"100.00" and "-30.00", and any transaction list and current date, the
dashboard metrics yield totalAssets = 100, totalLiabilities = 30 and
netWorth = 70. -/
theorem dashboard_metrics_scenario :
    ∀ (txs : List TransactionWithDetails) (cy cm : Nat),
      (dashboardMetrics [⟨1, "Checking", "100.00", 1⟩, ⟨2, "Credit", "-30.00", 1⟩]
        txs cy cm).totalAssets = 100 ∧
      (dashboardMetrics [⟨1, "Checking", "100.00", 1⟩, ⟨2, "Credit", "-30.00", 1⟩]
        txs cy cm).totalLiabilities = 30 ∧
      (dashboardMetrics [⟨1, "Checking", "100.00", 1⟩, ⟨2, "Credit", "-30.00", 1⟩]
        txs cy cm).netWorth = 70 := by
  intro txs cy cm
  have hp1 : parsedBalance ⟨1, "Checking", "100.00", 1⟩ = some 100 := by decide
  have hp2 : parsedBalance ⟨2, "Credit", "-30.00", 1⟩ = some (-30) := by decide
  refine ⟨?_, ?_, ?_⟩ <;>
    simp only [dashboardMetrics] <;>
    norm_num [List.filter_cons, List.filter_nil, List.foldl_cons, List.foldl_nil,
      hp1, hp2, jsGtZero, jsLtZero, jsAbs, Option.getD]

/-- Claim C10 (confirmed): the transaction store's totalCount starts at 0
and stays nonnegative under any sequence of successful creates and
deletes; a successful create increments it by one and a successful delete
decrements it by one clamped at zero. -/
theorem total_count_never_negative :
    (∀ ops : List TxnOp, 0 ≤ ops.foldl totalCountStep 0)
  ∧ (∀ c : Int, totalCountStep c .createOk = c + 1)
  ∧ (∀ c : Int, totalCountStep c .deleteOk = max 0 (c - 1)) := by
  exact ⟨fun ops => foldl_totalCountStep_nonneg ops 0 le_rfl,
    fun c => rfl, fun c => rfl⟩
